import Mathlib

/-!
Shallow embedding of the Speech-To-Text backend (an Express server with
routes /signup, /login, /upload, /transcribe, GET /transcriptions/:userId,
GET /).  Each route handler is modelled as a pure function from the parsed
request plus the outcomes of the external provider calls (credential store
queries, password hash/compare, blob storage upload, transcription call)
to an HTTP response, together with trace information recording which
providers were invoked and which rows were handed to the store.

External SDK calls never happen inside the model: each awaited call's
outcome is a parameter of the handler, shaped as the SDK shapes it
(`{ data, error }` pairs for the store, `{ result, error }` for the
transcription provider, a resolved-or-rejected promise for the hasher).
-/

namespace STT

/-- A user row as held by the external credential store
(spec data model: id, email, password digest, name). -/
structure UserRec where
  id : String
  email : String
  password : String
  name : String
deriving DecidableEq, Repr

/-- The `{ data, error }` pair returned by a store (supabase-style) call.
A transport/query failure is `data = none, error = some msg`; a miss from
`.single()` is also `data = none` with an error the handlers ignore. -/
structure StoreResp (α : Type) where
  data : Option α
  error : Option String
deriving DecidableEq, Repr

/-- The user row handed to the store by the signup insert:
`{ email, password: hashedPassword, name }`.  `email` and `name` are the
raw (possibly absent) body fields; `password` is the resolved hash. -/
structure InsertUserRow where
  email : Option String
  password : String
  name : Option String
deriving DecidableEq, Repr

/-- The row handed to the store by the /transcribe insert:
`{ user_id, transcript, file_url }`. -/
structure TranscriptionRow where
  user_id : String
  transcript : String
  file_url : String
deriving DecidableEq, Repr

/-- A row of the GET /transcriptions/:userId select:
`select("transcript, file_url")`. -/
structure TransListRow where
  transcript : String
  file_url : String
deriving DecidableEq, Repr

/-- A multer in-memory uploaded file: original client filename, mime type,
raw bytes. -/
structure MFile where
  originalname : String
  mimetype : String
  buffer : List Nat
deriving DecidableEq, Repr

/-- One alternative of a transcription-provider channel; `transcript` is
absent when the provider supplied none. -/
structure DGAlternative where
  transcript : Option String
deriving DecidableEq, Repr

/-- One channel of the transcription-provider result. -/
structure DGChannel where
  alternatives : List DGAlternative
deriving DecidableEq, Repr

/-- The `results` object of the transcription-provider result. -/
structure DGResults where
  channels : List DGChannel
deriving DecidableEq, Repr

/-- The transcription-provider `result` value; `results` may be absent. -/
structure DGResult where
  results : Option DGResults
deriving DecidableEq, Repr

/-- The `{ result, error }` pair returned by
`deepgram.listen.prerecorded.transcribeFile`. -/
structure DGResponse where
  result : Option DGResult
  error : Option String
deriving DecidableEq, Repr

/-- JSON response bodies actually produced by the handlers, one
constructor per object literal in the source.  User objects that the
claims reason about field-by-field are kept as association lists so that
presence and absence of keys is expressible. -/
inductive Body where
  | errMsg (error : String)
  | errDetails (error : String) (details : String)
  | signupOk (message : String) (user : Option UserRec)
  | loginOk (success : Bool) (message : String) (user : List (String × String))
  | uploadOk (message : String) (fileURL : String)
  | transcribeOk (message : String) (transcript : String)
      (savedTranscription : Option TranscriptionRow)
  | listOk (success : Bool) (transcriptions : Option (List TransListRow))
  | text (s : String)
deriving DecidableEq, Repr

/-- An HTTP response: status code plus JSON body.  `res.json(x)` without a
prior `res.status` is status 200. -/
structure Resp where
  status : Nat
  body : Body
deriving DecidableEq, Repr

/-- POST /signup request body fields (any of them may be absent from the
JSON body: the handler performs no presence validation). -/
structure SignupReq where
  email : Option String
  password : Option String
  name : Option String
deriving DecidableEq, Repr

/-- POST /login request body fields. -/
structure LoginReq where
  email : Option String
  password : Option String
deriving DecidableEq, Repr

/-- Output of the signup handler: the response plus a trace of whether the
hasher ran, whether the insert ran, and the row handed to the insert. -/
structure SignupOut where
  resp : Resp
  hashCalled : Bool
  insertCalled : Bool
  insertedRow : Option InsertUserRow
deriving DecidableEq, Repr

/-- POST /signup handler.  Parameters beyond the request: the outcome of
the store lookup `from('users').select('*').eq('email', email).single()`
(whose `error` field the code ignores), the hash call outcome
(`Except.error m` models a rejected `bcrypt.hash` promise, caught by the
catch-all), and the outcome of the insert.  Mirrors src lines 27-55:
an existing user short-circuits to 400 before hashing; an insert error is
thrown and caught, producing 500 with the store error message; otherwise
`res.json({message, user: newUser})`. -/
def signup (req : SignupReq) (lookup : StoreResp UserRec)
    (hashOutcome : Except String String)
    (insertResp : StoreResp UserRec) : SignupOut :=
  match lookup.data with
  | some _ =>
      ⟨⟨400, .errMsg "User already exists"⟩, false, false, none⟩
  | none =>
      match hashOutcome with
      | .error m =>
          ⟨⟨500, .errDetails "Error during signup" m⟩, true, false, none⟩
      | .ok hashedPassword =>
          let row : InsertUserRow := ⟨req.email, hashedPassword, req.name⟩
          match insertResp.error with
          | some m =>
              ⟨⟨500, .errDetails "Error during signup" m⟩, true, true, some row⟩
          | none =>
              ⟨⟨200, .signupOk "Signup successful!" insertResp.data⟩,
                true, true, some row⟩

/-- POST /login handler.  Parameters: the store lookup outcome (error
field ignored by the code) and the `bcrypt.compare` outcome
(`Except.error m` models a rejected promise caught by the catch-all).
Mirrors src lines 58-82: missing user and failed compare both yield the
same 400 body; success returns `{success, message, user:{id,email,name}}`
as an association list so key presence is visible. -/
def login (req : LoginReq) (lookup : StoreResp UserRec)
    (compareOutcome : Except String Bool) : Resp :=
  match lookup.data with
  | none => ⟨400, .errMsg "Invalid email or password"⟩
  | some user =>
      match compareOutcome with
      | .error m => ⟨500, .errDetails "Error during login" m⟩
      | .ok isMatch =>
          if isMatch then
            ⟨200, .loginOk true "Login successful!"
              [("id", user.id), ("email", user.email), ("name", user.name)]⟩
          else ⟨400, .errMsg "Invalid email or password"⟩

/-- The `data` value returned by a successful blob-storage upload. -/
structure UploadData where
  path : String
deriving DecidableEq, Repr

/-- POST /upload handler.  Parameters: the optional multer file, the
storage upload outcome, and the public-URL resolver (an external SDK
function of the stored path).  Mirrors src lines 86-110. -/
def uploadRoute (file : Option MFile)
    (storageResp : StoreResp UploadData)
    (publicUrlOf : String → String) : Resp :=
  match file with
  | none => ⟨400, .errMsg "No file uploaded"⟩
  | some _ =>
      match storageResp.error with
      | some m => ⟨500, .errDetails "Failed to upload to Supabase" m⟩
      | none =>
          match storageResp.data with
          | some d =>
              ⟨200, .uploadOk "Audio uploaded successfully!" (publicUrlOf d.path)⟩
          | none => ⟨200, .uploadOk "Audio uploaded successfully!" (publicUrlOf "")⟩

/-- The character class of the userId validation regex
`/^[0-9a-fA-F-]{36}$/`: hex digit (either case) or hyphen. -/
def isHexOrHyphen (c : Char) : Bool :=
  (decide ('0' ≤ c) && decide (c ≤ '9'))
  || (decide ('a' ≤ c) && decide (c ≤ 'f'))
  || (decide ('A' ≤ c) && decide (c ≤ 'F'))
  || c = '-'

/-- `uuidRegex.test userId` for `/^[0-9a-fA-F-]{36}$/`: exactly 36
characters, each in the hex-or-hyphen class. -/
def validUuidFormat (s : String) : Bool :=
  (s.data.length == 36) && s.data.all isHexOrHyphen

/-- The transcript extraction
`result?.results?.channels[0]?.alternatives[0]?.transcript`:
absent whenever any link of the optional chain is absent. -/
def rawTranscript (result : Option DGResult) : Option String := do
  let r ← result
  let rs ← r.results
  let ch ← rs.channels.head?
  let alt ← ch.alternatives.head?
  alt.transcript

/-- `rawTranscript ... || 'No transcript available'`: the JS `||` treats
both an absent transcript and the empty string as falsy. -/
def extractTranscript (result : Option DGResult) : String :=
  match rawTranscript result with
  | none => "No transcript available"
  | some t => if t = "" then "No transcript available" else t

/-- `req.file.originalname || "unknown_filename"`: the stored `file_url`
value; the empty filename is falsy and falls back. -/
def fileUrlValue (originalname : String) : String :=
  if originalname = "" then "unknown_filename" else originalname

/-- Output of the /transcribe handler: response, whether the transcription
provider was invoked, and the row handed to the store insert. -/
structure TranscribeOut where
  resp : Resp
  dgCalled : Bool
  insertedRow : Option TranscriptionRow
deriving DecidableEq, Repr

/-- POST /transcribe handler.  Parameters: the optional multer file, the
optional `userId` body field, the transcription-provider outcome, and the
store-insert outcome.  Mirrors src lines 113-177: missing file then
missing (or empty, JS-falsy) userId then regex check, each a 400; a
provider error is rethrown as the fixed message "Failed to transcribe
audio." and a store-insert error as "Failed to save transcription.", both
caught by the catch-all as 500 with those fixed strings as `details`. -/
def transcribe (file : Option MFile) (userId : Option String)
    (dg : DGResponse) (saveResp : StoreResp TranscriptionRow) : TranscribeOut :=
  match file with
  | none => ⟨⟨400, .errMsg "No file uploaded"⟩, false, none⟩
  | some f =>
      match userId with
      | none => ⟨⟨400, .errMsg "User ID is required"⟩, false, none⟩
      | some uid =>
          if uid = "" then ⟨⟨400, .errMsg "User ID is required"⟩, false, none⟩
          else if validUuidFormat uid then
            match dg.error with
            | some _ =>
                ⟨⟨500, .errDetails "Error transcribing audio"
                    "Failed to transcribe audio."⟩, true, none⟩
            | none =>
                let transcript := extractTranscript dg.result
                let row : TranscriptionRow :=
                  ⟨uid, transcript, fileUrlValue f.originalname⟩
                match saveResp.error with
                | some _ =>
                    ⟨⟨500, .errDetails "Error transcribing audio"
                        "Failed to save transcription."⟩, true, some row⟩
                | none =>
                    ⟨⟨200, .transcribeOk "Transcription successful!" transcript
                        saveResp.data⟩, true, some row⟩
          else ⟨⟨400, .errMsg "Invalid UUID format for userId"⟩, false, none⟩

/-- GET /transcriptions/:userId handler.  Parameters: the path parameter
(falsy check as in the code) and the store select outcome.  Mirrors src
lines 178-201. -/
def listTranscriptions (userId : Option String)
    (queryResp : StoreResp (List TransListRow)) : Resp :=
  match userId with
  | none => ⟨400, .errMsg "User ID is required"⟩
  | some uid =>
      if uid = "" then ⟨400, .errMsg "User ID is required"⟩
      else
        match queryResp.error with
        | some m => ⟨500, .errDetails "Database query failed" m⟩
        | none => ⟨200, .listOk true queryResp.data⟩

/-- GET / liveness handler (src lines 202-204). -/
def liveness : Resp :=
  ⟨200, .text "Server is live and running on port 5500"⟩

/-- On the valid /transcribe path — file present, userId nonempty and
passing the format check — the transcription provider is always invoked,
whatever its outcome and the store-insert outcome. -/
lemma transcribe_valid_calls_dg (f : MFile) (uid : String) (dg : DGResponse)
    (save : StoreResp TranscriptionRow) (hz : ¬ uid = "")
    (hv : validUuidFormat uid = true) :
    (transcribe (some f) (some uid) dg save).dgCalled = true := by
  obtain ⟨dgr, dge⟩ := dg
  obtain ⟨sd, se⟩ := save
  cases dge <;> cases se <;> simp [transcribe, hz, hv]

/-- C1: for every POST /login request, a lookup that finds no user and a
lookup that finds the user but whose password verification returns false
produce the identical response: status 400 with body
`{error:'Invalid email or password'}`, so the two failure causes are
indistinguishable to the client. -/
theorem login_failure_indistinguishable (req : LoginReq)
    (e1 e2 : Option String) (u : UserRec) (c : Except String Bool) :
    login req ⟨none, e1⟩ c = ⟨400, .errMsg "Invalid email or password"⟩ ∧
    login req ⟨some u, e2⟩ (.ok false) =
      ⟨400, .errMsg "Invalid email or password"⟩ :=
  ⟨rfl, rfl⟩

/-- C7: a POST /signup request whose email already has a user record in
the store returns status 400 with body `{error:'User already exists'}`,
with no hash computation, no insert call, and no row handed to the store,
whatever the other provider outcomes would have been. -/
theorem signup_duplicate_email (req : SignupReq) (u : UserRec)
    (le : Option String) (hashOutcome : Except String String)
    (insertResp : StoreResp UserRec) :
    signup req ⟨some u, le⟩ hashOutcome insertResp =
      ⟨⟨400, .errMsg "User already exists"⟩, false, false, none⟩ :=
  rfl

/-- C8: a successful POST /login response has status 200 and a user
object whose keys are exactly id, email, name — in particular the stored
password digest is not among them. -/
theorem login_success_user_fields (req : LoginReq) (u : UserRec)
    (le : Option String) :
    ∃ fields,
      login req ⟨some u, le⟩ (.ok true) =
        ⟨200, .loginOk true "Login successful!" fields⟩ ∧
      fields.map Prod.fst = ["id", "email", "name"] ∧
      "password" ∉ fields.map Prod.fst :=
  ⟨[("id", u.id), ("email", u.email), ("name", u.name)], rfl, rfl, by simp⟩

/-- C10: POST /signup performs no presence validation: with a missing
password (and no existing user for the email), the handler never answers
400, whatever the hash and insert outcomes; a rejected hash call surfaces
through the catch-all as 500 with body
`{error:'Error during signup', details: <hash error message>}`. -/
theorem signup_no_presence_validation (email nm : Option String)
    (le : Option String) (insertResp : StoreResp UserRec) :
    (∀ hashOutcome,
      (signup ⟨email, none, nm⟩ ⟨none, le⟩ hashOutcome insertResp).resp.status
        ≠ 400) ∧
    (∀ m, (signup ⟨email, none, nm⟩ ⟨none, le⟩ (.error m) insertResp).resp =
      ⟨500, .errDetails "Error during signup" m⟩) := by
  refine ⟨?_, fun m => rfl⟩
  intro hashOutcome
  obtain ⟨insd, inse⟩ := insertResp
  cases hashOutcome <;> cases inse <;> simp [signup]

/-- C4: with a file present, the /transcribe handler answers 400 without
invoking the transcription provider exactly when the userId field is
missing or is not 36 characters of hex digits and hyphens; in particular
"abc" fails the format check and
"123e4567-e89b-12d3-a456-426614174000" passes it. -/
theorem transcribe_userid_gate (f : MFile) (userId : Option String)
    (dg : DGResponse) (save : StoreResp TranscriptionRow) :
    (((transcribe (some f) userId dg save).resp.status = 400 ∧
        (transcribe (some f) userId dg save).dgCalled = false) ↔
      ¬ ∃ uid, userId = some uid ∧ validUuidFormat uid = true) ∧
    validUuidFormat "abc" = false ∧
    validUuidFormat "123e4567-e89b-12d3-a456-426614174000" = true := by
  refine ⟨⟨?_, ?_⟩, by decide, by decide⟩
  · rintro ⟨h400, hcall⟩ ⟨uid, rfl, hval⟩
    have hz : ¬ uid = "" := by
      intro h; subst h; exact absurd hval (by decide)
    rw [transcribe_valid_calls_dg f uid dg save hz hval] at hcall
    exact Bool.noConfusion hcall
  · intro hno
    match userId with
    | none => exact ⟨rfl, rfl⟩
    | some uid =>
      by_cases hz : uid = ""
      · subst hz; exact ⟨rfl, rfl⟩
      · have hv : validUuidFormat uid = false := by
          cases hvb : validUuidFormat uid
          · rfl
          · exact absurd ⟨uid, rfl, hvb⟩ hno
        constructor <;> simp [transcribe, hz, hv]

/-- C9: the userId format check constrains only length and character
class, not UUID structure: a string of 36 hyphens and a string of 36 hex
digits with no hyphens both pass the check, and /transcribe proceeds to
invoke the transcription provider on them. -/
theorem userid_check_not_uuid_structure (f : MFile) (dg : DGResponse)
    (save : StoreResp TranscriptionRow) :
    validUuidFormat "------------------------------------" = true ∧
    validUuidFormat "0123456789abcdef0123456789ABCDEF0123" = true ∧
    (transcribe (some f) (some "------------------------------------")
        dg save).dgCalled = true ∧
    (transcribe (some f) (some "0123456789abcdef0123456789ABCDEF0123")
        dg save).dgCalled = true := by
  refine ⟨by decide, by decide, ?_, ?_⟩ <;>
    exact transcribe_valid_calls_dg _ _ dg save (by decide) (by decide)

/-- C3: when the transcription provider reports no error but the first
alternative of the first channel carries no transcript (absent, or the
empty string, both JS-falsy), /transcribe does not fail: the sentinel
"No transcript available" is used as the transcript, is the transcript of
the row handed to the store insert, and is returned with status 200
(the store insert succeeding). -/
theorem transcribe_no_transcript_fallback (f : MFile) (uid : String)
    (hz : uid ≠ "") (hv : validUuidFormat uid = true)
    (dgr : Option DGResult)
    (he : rawTranscript dgr = none ∨ rawTranscript dgr = some "")
    (sd : Option TranscriptionRow) :
    (transcribe (some f) (some uid) ⟨dgr, none⟩ ⟨sd, none⟩).resp =
      ⟨200, .transcribeOk "Transcription successful!"
        "No transcript available" sd⟩ ∧
    ((transcribe (some f) (some uid) ⟨dgr, none⟩ ⟨sd, none⟩).insertedRow.map
      TranscriptionRow.transcript) = some "No transcript available" := by
  have hx : extractTranscript dgr = "No transcript available" := by
    rcases he with h | h <;> simp [extractTranscript, h]
  constructor <;> simp [transcribe, hz, hv, hx]

/-- Concrete instance of the C3 theorem: an empty channel list, an
uploaded file and a well-formed userId. -/
theorem transcribe_no_transcript_fallback_witness :
    (("abcdefabcdefabcdefabcdefabcdefabcdef" : String) ≠ "" ∧
     validUuidFormat "abcdefabcdefabcdefabcdefabcdefabcdef" = true ∧
     (rawTranscript (some ⟨some ⟨[]⟩⟩) = none ∨
      rawTranscript (some ⟨some ⟨[]⟩⟩) = some "")) ∧
    ((transcribe (some ⟨"a.wav", "audmwav", [1, 2]⟩)
        (some "abcdefabcdefabcdefabcdefabcdefabcdef")
        ⟨some ⟨some ⟨[]⟩⟩, none⟩ ⟨none, none⟩).resp =
      ⟨200, .transcribeOk "Transcription successful!"
        "No transcript available" none⟩ ∧
     ((transcribe (some ⟨"a.wav", "audmwav", [1, 2]⟩)
        (some "abcdefabcdefabcdefabcdefabcdefabcdef")
        ⟨some ⟨some ⟨[]⟩⟩, none⟩ ⟨none, none⟩).insertedRow.map
      TranscriptionRow.transcript) = some "No transcript available") :=
  ⟨⟨by decide, by decide, by decide⟩,
    transcribe_no_transcript_fallback ⟨"a.wav", "audmwav", [1, 2]⟩
      "abcdefabcdefabcdefabcdefabcdefabcdef" (by decide) (by decide)
      (some ⟨some ⟨[]⟩⟩) (by decide) none⟩

/-- C5 fails as stated: a successful /transcribe whose uploaded file has
the empty string as its original filename stores "unknown_filename" in
the row's file_url, which differs from the original filename. -/
theorem transcribe_file_url_counterexample :
    ((transcribe (some ⟨"", "audmwav", []⟩)
        (some "123e4567-e89b-12d3-a456-426614174000")
        ⟨some ⟨some ⟨[⟨[⟨some "hello"⟩]⟩]⟩⟩, none⟩ ⟨none, none⟩).resp.status
      = 200) ∧
    ((transcribe (some ⟨"", "audmwav", []⟩)
        (some "123e4567-e89b-12d3-a456-426614174000")
        ⟨some ⟨some ⟨[⟨[⟨some "hello"⟩]⟩]⟩⟩, none⟩ ⟨none, none⟩).insertedRow.map
      TranscriptionRow.file_url = some "unknown_filename") ∧
    ("unknown_filename" : String) ≠ "" := by
  refine ⟨by decide, by decide, by decide⟩

/-- C5 amended: every row /transcribe hands to the store insert has
file_url equal to the uploaded file's original filename when that is
nonempty, and to the literal "unknown_filename" when it is empty; in no
case is it a storage URL, the handler never contacting blob storage. -/
theorem transcribe_file_url_is_filename (f : MFile) (uid : String)
    (hz : uid ≠ "") (hv : validUuidFormat uid = true)
    (dgr : Option DGResult) (sd : Option TranscriptionRow)
    (se : Option String) :
    ((transcribe (some f) (some uid) ⟨dgr, none⟩ ⟨sd, se⟩).insertedRow.map
      TranscriptionRow.file_url) = some (fileUrlValue f.originalname) ∧
    (f.originalname ≠ "" → fileUrlValue f.originalname = f.originalname) ∧
    (f.originalname = "" → fileUrlValue f.originalname = "unknown_filename")
    := by
  refine ⟨?_, fun h => by simp [fileUrlValue, h],
    fun h => by simp [fileUrlValue, h]⟩
  cases se <;> simp [transcribe, hz, hv]

/-- Concrete instance of the amended C5 theorem. -/
theorem transcribe_file_url_is_filename_witness :
    (("ffffffffffffffffffffffffffffffffffff" : String) ≠ "" ∧
     validUuidFormat "ffffffffffffffffffffffffffffffffffff" = true) ∧
    (((transcribe (some ⟨"talk.mp3", "audm", []⟩)
        (some "ffffffffffffffffffffffffffffffffffff")
        ⟨none, none⟩ ⟨none, none⟩).insertedRow.map
      TranscriptionRow.file_url) = some (fileUrlValue "talk.mp3") ∧
     (("talk.mp3" : String) ≠ "" → fileUrlValue "talk.mp3" = "talk.mp3") ∧
     (("talk.mp3" : String) = "" →
        fileUrlValue "talk.mp3" = "unknown_filename")) :=
  ⟨⟨by decide, by decide⟩,
    transcribe_file_url_is_filename ⟨"talk.mp3", "audm", []⟩
      "ffffffffffffffffffffffffffffffffffff" (by decide) (by decide)
      none none none⟩

/-- C6: a successful signup responds 200 with the user record exactly as
the store insert returned it — here a record whose password field is the
hash-call output hp, i.e. the digest is included in the response — while
the row handed to the store carries the digest, not the plaintext, and
the entire handler output is invariant under the request's plaintext
password once the hash outcome is fixed: the plaintext is neither stored
nor returned. -/
theorem signup_returns_store_record (req : SignupReq) (le : Option String)
    (hp uid uem unm : String) :
    ((signup req ⟨none, le⟩ (.ok hp)
        ⟨some ⟨uid, uem, hp, unm⟩, none⟩).resp.status = 200 ∧
     ∃ urec,
       (signup req ⟨none, le⟩ (.ok hp)
          ⟨some ⟨uid, uem, hp, unm⟩, none⟩).resp.body =
         .signupOk "Signup successful!" (some urec) ∧ urec.password = hp) ∧
    (signup req ⟨none, le⟩ (.ok hp)
        ⟨some ⟨uid, uem, hp, unm⟩, none⟩).insertedRow =
      some ⟨req.email, hp, req.name⟩ ∧
    (∀ d : Option UserRec,
      (signup req ⟨none, le⟩ (.ok hp) ⟨d, none⟩).resp.body =
        .signupOk "Signup successful!" d) ∧
    (∀ p1 p2 : Option String,
      signup { req with password := p1 } ⟨none, le⟩ (.ok hp)
          ⟨some ⟨uid, uem, hp, unm⟩, none⟩ =
        signup { req with password := p2 } ⟨none, le⟩ (.ok hp)
          ⟨some ⟨uid, uem, hp, unm⟩, none⟩) :=
  ⟨⟨rfl, ⟨uid, uem, hp, unm⟩, rfl, rfl⟩, rfl, fun _ => rfl, fun _ _ => rfl⟩

/-- C2 fails as stated: a /transcribe whose transcription-provider call
fails with the raw message "DG_RAW_ERROR" answers 500 with details
"Failed to transcribe audio.", not the provider's raw message; and a
/login whose store lookup fails outright is answered 400 with the
invalid-credentials body, not 500 at all. -/
theorem downstream_error_verbatim_counterexample :
    ((transcribe (some ⟨"a.wav", "audmwav", []⟩)
        (some "ffffffffffffffffffffffffffffffffffff")
        ⟨none, some "DG_RAW_ERROR"⟩ ⟨none, none⟩).resp =
      ⟨500, .errDetails "Error transcribing audio"
        "Failed to transcribe audio."⟩) ∧
    ("Failed to transcribe audio." : String) ≠ "DG_RAW_ERROR" ∧
    (login ⟨some "a@b.c", some "pw"⟩ ⟨none, some "STORE_RAW_ERROR"⟩
        (.ok true) = ⟨400, .errMsg "Invalid email or password"⟩) :=
  ⟨by decide, by decide, rfl⟩

/-- C2 amended: every surfaced downstream failure is an immediate 500;
the details field carries the provider's raw message verbatim for the
/upload storage failure, the /signup insert failure and the
GET /transcriptions query failure, but /transcribe replaces the provider
messages with the fixed strings "Failed to transcribe audio." and
"Failed to save transcription."; and a store-lookup failure is not
surfaced as 500 at all: /login answers it 400 invalid-credentials, and
/signup ignores it and proceeds (200 when hash and insert succeed). -/
theorem downstream_error_surfacing
    (f : MFile) (d : Option UploadData) (pu : String → String) (e : String)
    (req : SignupReq) (le : Option String) (hp : String)
    (du : Option UserRec) (uid : String) (hz : uid ≠ "")
    (hv : validUuidFormat uid = true) (dl : Option (List TransListRow))
    (dgr : Option DGResult) (sd : Option TranscriptionRow)
    (lreq : LoginReq) (nu : Option UserRec) (c : Except String Bool) :
    uploadRoute (some f) ⟨d, some e⟩ pu =
      ⟨500, .errDetails "Failed to upload to Supabase" e⟩ ∧
    (signup req ⟨none, le⟩ (.ok hp) ⟨du, some e⟩).resp =
      ⟨500, .errDetails "Error during signup" e⟩ ∧
    listTranscriptions (some uid) ⟨dl, some e⟩ =
      ⟨500, .errDetails "Database query failed" e⟩ ∧
    (transcribe (some f) (some uid) ⟨dgr, some e⟩ ⟨sd, none⟩).resp =
      ⟨500, .errDetails "Error transcribing audio"
        "Failed to transcribe audio."⟩ ∧
    (transcribe (some f) (some uid) ⟨dgr, none⟩ ⟨sd, some e⟩).resp =
      ⟨500, .errDetails "Error transcribing audio"
        "Failed to save transcription."⟩ ∧
    login lreq ⟨none, some e⟩ c = ⟨400, .errMsg "Invalid email or password"⟩ ∧
    (signup req ⟨none, some e⟩ (.ok hp) ⟨nu, none⟩).resp.status = 200 := by
  refine ⟨rfl, rfl, ?_, ?_, ?_, rfl, rfl⟩
  · simp [listTranscriptions, hz]
  · simp [transcribe, hz, hv]
  · simp [transcribe, hz, hv]

/-- Concrete instance of the amended C2 theorem. -/
theorem downstream_error_surfacing_witness :
    (("------------------------------------" : String) ≠ "" ∧
     validUuidFormat "------------------------------------" = true) ∧
    (uploadRoute (some ⟨"a.wav", "audmwav", []⟩) ⟨none, some "RAW_MSG"⟩ id =
      ⟨500, .errDetails "Failed to upload to Supabase" "RAW_MSG"⟩ ∧
    (signup ⟨some "a@b.c", some "pw", some "Al"⟩ ⟨none, none⟩ (.ok "HASH")
        ⟨none, some "RAW_MSG"⟩).resp =
      ⟨500, .errDetails "Error during signup" "RAW_MSG"⟩ ∧
    listTranscriptions (some "------------------------------------")
        ⟨none, some "RAW_MSG"⟩ =
      ⟨500, .errDetails "Database query failed" "RAW_MSG"⟩ ∧
    (transcribe (some ⟨"a.wav", "audmwav", []⟩)
        (some "------------------------------------")
        ⟨none, some "RAW_MSG"⟩ ⟨none, none⟩).resp =
      ⟨500, .errDetails "Error transcribing audio"
        "Failed to transcribe audio."⟩ ∧
    (transcribe (some ⟨"a.wav", "audmwav", []⟩)
        (some "------------------------------------")
        ⟨none, none⟩ ⟨none, some "RAW_MSG"⟩).resp =
      ⟨500, .errDetails "Error transcribing audio"
        "Failed to save transcription."⟩ ∧
    login ⟨some "a@b.c", some "pw"⟩ ⟨none, some "RAW_MSG"⟩ (.ok true) =
      ⟨400, .errMsg "Invalid email or password"⟩ ∧
    (signup ⟨some "a@b.c", some "pw", some "Al"⟩ ⟨none, some "RAW_MSG"⟩
        (.ok "HASH") ⟨none, none⟩).resp.status = 200) :=
  ⟨⟨by decide, by decide⟩,
    downstream_error_surfacing ⟨"a.wav", "audmwav", []⟩ none id "RAW_MSG"
      ⟨some "a@b.c", some "pw", some "Al"⟩ none "HASH" none
      "------------------------------------" (by decide) (by decide)
      none none none ⟨some "a@b.c", some "pw"⟩ none (.ok true)⟩

end STT
